import Mathlib

/-!
Shallow embedding of the news-article agent's ingestion-and-retrieval
pipeline (content processor, Pinecone adapter, ingestion coordinator,
Kafka message handler and RAG query router), together with theorems
settling the specification claims about it.

External capabilities (HTTP fetch, the Gemini structuring/embedding/
text-generation models, the Pinecone index client and the broker) are
modelled as an oracle environment `Env`; the repository's own control
flow is translated function by function from the TypeScript source.
Observable side effects (fetches, structuring calls, embedding
submissions, store writes, retry sleeps) are collected in an event
trace so that claims about "work performed" and retry delays can be
stated.
-/

namespace NewsAgent

/-- Errors are carried as their message strings, as in the source where
every caught error is rewrapped into `new Error(prefixText + message)`. -/
abbrev Err := String

/-- src/types/index.ts `Article`. -/
structure Article where
  title : String
  content : String
  url : String
  date : String
deriving DecidableEq

/-- src/types/index.ts `Source`; `content` is the optional field. -/
structure Source where
  title : String
  url : String
  date : String
  content : Option String
deriving DecidableEq

/-- src/types/index.ts `ApiResponse`. -/
structure ApiResponse where
  answer : String
  sources : List Source
deriving DecidableEq

/-- Observable effects of a run: network fetch, structuring call,
text submitted to the embedding capability, a store write, and a
retry backoff sleep (milliseconds). -/
inductive Ev
  | fetch (url : String)
  | structureCall
  | embedCall (text : String)
  | storeWrite (id : String)
  | sleep (ms : Nat)
deriving DecidableEq

/-- Outcome of the HTTP fetch in `fetchUrlContent`: a network error
(rejected promise) or a response with its `ok` flag and body text. -/
inductive FetchResp
  | netError
  | httpResp (ok : Bool) (body : String)

/-- The three JSON fields the structuring prompt asks for; `none`
models a key absent from the parsed object (JS `undefined`). -/
structure StructuredJson where
  title : Option String
  content : Option String
  date : Option String

/-- Outcome of the structuring model call in `cleanAndStructureHtml`,
observed at the parse boundary: the API call threw, the response text
was empty, `JSON.parse` threw, or a parsed object was obtained. -/
inductive StructResp
  | errored
  | emptyText
  | unparseable
  | parsed (j : StructuredJson)

/-- Vector-store state: the records of the Pinecone index, keyed by id
(the article URL), carrying the vector and the article metadata. -/
abbrev Store := List (String × List Int × Article)

/-- Oracle environment for all external calls. `structGen` receives the
truncated html and the url (the deterministic prompt construction around
them is absorbed into the oracle). `writeFault k` is the error, if any,
of the k-th write attempt inside one `upsertVector` call; `fetchFault`
says whether the point-lookup `index.fetch` rejects; `dispatchFault`
models an exception raised inside `handleQuery`'s try-block outside the
two sub-handlers (e.g. by logging). -/
structure Env where
  fetch : String → FetchResp
  structGen : String → String → StructResp
  embedContent : String → Except Err (Option (List Int))
  generateContent : String → Except Err String
  queryMatches : List Int → Nat → Except Err (List (Option Article))
  pineconeInitialized : Bool
  fetchFault : Bool
  writeFault : Nat → Option Err
  dispatchFault : Option Err

/-- JS `s.substring(0, n)`: the prefix of at most `n` characters. -/
def jsSubstring (s : String) (n : Nat) : String :=
  String.mk (s.data.take n)

/-- JS `x || d` on an optional string field: the default replaces both
a missing key and an empty string (both falsy). -/
def jsOr (o : Option String) (d : String) : String :=
  match o with
  | some s => if s = "" then d else s
  | none => d

/-- src/utils/helpers.ts `isValidUrl`: true iff the string parses as an
absolute URL whose protocol is http or https. The `new URL` builtin is
modelled by a scheme-prefix check. -/
def isValidUrl (url : String) : Bool :=
  if url = "" then false
  else "http://".data.isPrefixOf url.data || "https://".data.isPrefixOf url.data

/-! ## geminiService -/

/-- src geminiService `MAX_EMBED_TEXT_LENGTH`. -/
def MAX_EMBED_TEXT_LENGTH : Nat := 12000

/-- The truncation `generateEmbeddings` applies before submitting text
to the embedding capability. -/
def truncForEmbedding (text : String) : String :=
  if text.length > MAX_EMBED_TEXT_LENGTH then jsSubstring text MAX_EMBED_TEXT_LENGTH else text

/-- src geminiService `generateEmbeddings`: truncates, calls the
capability, fails hard when it errors or returns no values; the trace
records the exact text submitted. -/
def generateEmbeddings (env : Env) (text : String) : Except Err (List Int) × List Ev :=
  let truncatedText := truncForEmbedding text
  match env.embedContent truncatedText with
  | .error e =>
      (.error ("Gemini embedding generation failed: " ++ e), [Ev.embedCall truncatedText])
  | .ok none =>
      (.error "Gemini embedding generation failed: Gemini embedding API returned success but no embedding values.",
       [Ev.embedCall truncatedText])
  | .ok (some v) => (.ok v, [Ev.embedCall truncatedText])

/-- src geminiService `generateText`: wraps capability errors. -/
def generateText (env : Env) (prompt : String) : Except Err String :=
  match env.generateContent prompt with
  | .error e => .error ("Gemini text generation failed: " ++ e)
  | .ok t => .ok t

/-- src geminiService `MAX_HTML_LENGTH`. -/
def MAX_HTML_LENGTH : Nat := 120000

/-- src geminiService `cleanAndStructureHtml`: truncate html, call the
structuring capability, treat API errors / empty text / unparseable
JSON as soft failure (null), default missing or empty fields. -/
def cleanAndStructureHtml (env : Env) (htmlContent : String) (url : String) : Option Article :=
  let truncatedHtml :=
    if htmlContent.length > MAX_HTML_LENGTH then jsSubstring htmlContent MAX_HTML_LENGTH
    else htmlContent
  match env.structGen truncatedHtml url with
  | .errored => none
  | .emptyText => none
  | .unparseable => none
  | .parsed j =>
      some { title := jsOr j.title "Untitled Article"
             content := jsOr j.content ""
             url := url
             date := jsOr j.date "" }

/-! ## contentProcessor -/

/-- src contentProcessor `fetchUrlContent`: null on network error or
non-ok status, otherwise the body text. -/
def fetchUrlContent (env : Env) (url : String) : Option String :=
  match env.fetch url with
  | .netError => none
  | .httpResp ok body => if ok then some body else none

/-- The embedding input `processUrl` builds: title, ". ", and the
content truncated by `substring(0, 8000)`. -/
def contentForEmbedding (article : Article) : String :=
  article.title ++ ". " ++ jsSubstring article.content 8000

/-- src contentProcessor `processUrl`: validate, fetch, structure,
embed; every failure (the embedding error included, via the enclosing
catch-all) yields `none`. -/
def processUrl (env : Env) (url : String) : Option (Article × List Int) × List Ev :=
  if url = "" ∨ isValidUrl url = false then (none, [])
  else
    match fetchUrlContent env url with
    | none => (none, [Ev.fetch url])
    | some htmlContent =>
      if htmlContent = "" then (none, [Ev.fetch url])
      else
        match cleanAndStructureHtml env htmlContent url with
        | none => (none, [Ev.fetch url, Ev.structureCall])
        | some article =>
          match generateEmbeddings env (contentForEmbedding article) with
          | (.error _, ev) => (none, Ev.fetch url :: Ev.structureCall :: ev)
          | (.ok vector, ev) => (some (article, vector), Ev.fetch url :: Ev.structureCall :: ev)

/-! ## pineconeService -/

/-- src pineconeService `MAX_RETRIES`. -/
def MAX_RETRIES : Nat := 2

/-- Membership of an id among the index records. -/
def storeHas (store : Store) (id : String) : Bool :=
  store.any (fun r => r.1 == id)

/-- The effect of `index.upsert` on the backing index: replace or
append the record for the id (Pinecone upsert overwrite semantics). -/
def applyWrite (store : Store) (id : String) (v : List Int) (a : Article) : Store :=
  store.filter (fun r => r.1 != id) ++ [(id, v, a)]

/-- The retry while-loop of `upsertVector`: `retryCount` runs from 0
while `retryCount ≤ MAX_RETRIES`; a failed attempt increments it and
sleeps `2 ^ retryCount * 1000` ms before the next try; after the last
allowed failure the last error is thrown wrapped. `fuel` is the loop
bound `MAX_RETRIES + 1 - retryCount`, always positive at entry, so the
zero case is unreachable. -/
def upsertLoop (env : Env) (id : String) (v : List Int) (a : Article) :
    Store → Nat → Nat → Except Err Unit × Store × List Ev
  | store, 0, _ => (.error "retry loop exhausted", store, [])
  | store, _fuel+1, retryCount =>
    match env.writeFault retryCount with
    | none => (.ok (), applyWrite store id v a, [Ev.storeWrite id])
    | some e =>
      if retryCount + 1 ≤ MAX_RETRIES then
        let delay := 2 ^ (retryCount + 1) * 1000
        let rest := upsertLoop env id v a store _fuel (retryCount + 1)
        (rest.1, rest.2.1, Ev.sleep delay :: rest.2.2)
      else
        (.error ("Failed to upsert vector to Pinecone: " ++ e), store, [])

/-- src pineconeService `upsertVector`: throws if the client is not
initialized; skips (no-op) when `vectorExists` reports the id present
(the point lookup defaults to false on adapter error, `fetchFault`);
otherwise writes with the bounded retry loop. -/
def upsertVector (env : Env) (store : Store) (id : String) (v : List Int) (a : Article) :
    Except Err Unit × Store × List Ev :=
  if env.pineconeInitialized = false then
    (.error "Pinecone client not initialized. Call initializePinecone() first.", store, [])
  else
    let exs := if env.fetchFault then false else storeHas store id
    if exs then (.ok (), store, [])
    else upsertLoop env id v a store (MAX_RETRIES + 1) 0

/-- Mapping of query matches to `Source` views in
`querySimilarVectors`: drop matches without metadata, default falsy
fields, keep `content` populated for internal use. -/
def matchesToSources (mds : List (Option Article)) : List Source :=
  (mds.filterMap id).map (fun md =>
    { title := if md.title = "" then "Unknown Title" else md.title
      url := md.url
      date := md.date
      content := some md.content })

/-- src pineconeService `querySimilarVectors`: throws if the client is
not initialized, wraps query errors, returns mapped sources (empty
result is a valid outcome). -/
def querySimilarVectors (env : Env) (vector : List Int) (topK : Nat) : Except Err (List Source) :=
  if env.pineconeInitialized = false then .error "Pinecone client not initialized."
  else
    match env.queryMatches vector topK with
    | .error e => .error ("Pinecone query failed: " ++ e)
    | .ok ms => .ok (matchesToSources ms)

/-! ## ingestionService -/

/-- src ingestionService `handleUrlIngestion`: reject invalid URLs
(plain return), abort silently when `processUrl` yields null, store the
result; a storage error is wrapped twice (inner `Vector storage
failed:` rethrow, outer `URL processing failed:` catch) and re-raised. -/
def handleUrlIngestion (env : Env) (store : Store) (url : String) :
    Except Err Unit × Store × List Ev :=
  if url = "" ∨ isValidUrl url = false then (.ok (), store, [])
  else
    match processUrl env url with
    | (none, ev) => (.ok (), store, ev)
    | (some (article, vector), ev) =>
      match upsertVector env store url vector article with
      | (.ok _, store', ev') => (.ok (), store', ev ++ ev')
      | (.error e, store', ev') =>
        (.error ("URL processing failed: Vector storage failed: " ++ e), store', ev ++ ev')

/-! ## kafkaConsumer -/

/-- A consumed message value, observed at the JSON-parse boundary of
`handleKafkaMessage`: missing value, parsed JSON with `.value.url`,
parsed JSON with `.url`, parsed JSON with neither, or a non-JSON raw
string. -/
inductive KafkaMessageValue
  | empty
  | jsonWithValueUrl (url raw : String)
  | jsonWithUrl (url raw : String)
  | jsonOther (raw : String)
  | notJson (raw : String)
deriving DecidableEq

/-- The URL `handleKafkaMessage` extracts from a message (none when the
message value is missing; the raw payload is the fallback). -/
def messageUrl : KafkaMessageValue → Option String
  | .empty => none
  | .jsonWithValueUrl url _ => some url
  | .jsonWithUrl url _ => some url
  | .jsonOther raw => some raw
  | .notJson raw => some raw

/-- src kafkaConsumer `MAX_CACHE_SIZE`. -/
def MAX_CACHE_SIZE : Nat := 1000

/-- JS `Set.add` on the dedup cache, as an insertion-ordered list. -/
def addToCache (cache : List String) (url : String) : List String :=
  if url ∈ cache then cache else cache ++ [url]

/-- src kafkaConsumer `handleKafkaMessage`: extract the URL, skip when
it is in the dedup cache, otherwise ingest; only after a non-throwing
ingestion is the URL added to the cache, and the cache is fully cleared
when its size then exceeds the cap. An ingestion error is caught and
logged (the cache is left untouched). -/
def handleKafkaMessage (env : Env) (cache : List String) (store : Store)
    (msg : KafkaMessageValue) : List String × Store × List Ev :=
  match messageUrl msg with
  | none => (cache, store, [])
  | some url =>
    if url ∈ cache then (cache, store, [])
    else
      match handleUrlIngestion env store url with
      | (.ok _, store', ev) =>
        let cache' := addToCache cache url
        let cache'' := if MAX_CACHE_SIZE < cache'.length then [] else cache'
        (cache'', store', ev)
      | (.error _, store', ev) => (cache, store', ev)

/-! ## ragService -/

/-- The summarization prompt `handleUrlQuery` builds (whitespace of the
template literal condensed). -/
def urlQueryPrompt (article : Article) : String :=
  "You are analyzing a web article. Please provide a comprehensive summary of the main points.\n\n" ++
  "Article Title: " ++ article.title ++ "\n" ++
  "Article URL: " ++ article.url ++ "\n" ++
  "Article Date: " ++ (if article.date = "" then "Unknown" else article.date) ++ "\n\n" ++
  "Article Content:\n" ++ article.content ++ "\n\n" ++
  "Provide a clear, factual summary of this article. Focus on the key information, main arguments, and important details."

/-- One entry of the grounding context (`Source N: ...`), content
defaulted to "Unknown" when absent or empty. -/
def sourceContextEntry (i : Nat) (s : Source) : String :=
  "Source " ++ toString i ++ ":\n" ++
  "Title: " ++ s.title ++ "\n" ++
  "URL: " ++ s.url ++ "\n" ++
  "Date: " ++ (if s.date = "" then "Unknown" else s.date) ++ "\n" ++
  "Content: " ++ jsOr s.content "Unknown" ++ "\n---"

/-- The grounding prompt `handleKnowledgeBaseQuery` builds. -/
def knowledgePrompt (query : String) (sources : List Source) : String :=
  "You are answering a question based on provided sources and content. " ++
  "Only use information from these sources and content to formulate your answer.\n\n" ++
  "QUESTION: " ++ query ++ "\n\n" ++
  "INFORMATION:\n" ++
  String.intercalate "\n\n" (sources.enum.map (fun p => sourceContextEntry (p.1 + 1) p.2)) ++
  "\n\nInstructions:\n" ++
  "1. Answer based ONLY on the information in the provided sources.\n" ++
  "2. If the sources don't contain enough information to answer fully, acknowledge the limitations.\n" ++
  "3. Do not make up or infer information not present in the sources.\n" ++
  "4. Provide a clear answer."

/-- The content-stripping projection applied to sources before they are
returned. -/
def stripSource (s : Source) : Source :=
  { title := s.title, url := s.url, date := s.date, content := none }

/-- src ragService `handleUrlQuery`: extract via `processUrl`, then
generate; any error (generation included) is caught by the handler's
catch-all and yields a fixed error answer with empty sources. -/
def handleUrlQuery (env : Env) (url : String) : ApiResponse :=
  match (processUrl env url).1 with
  | none =>
    { answer := "I couldn't process this URL. It may be inaccessible or doesn't contain extractable content."
      sources := [] }
  | some (article, _) =>
    match generateText env (urlQueryPrompt article) with
    | .ok answer =>
      { answer := answer
        sources := [{ title := article.title, url := article.url, date := article.date, content := none }] }
    | .error _ =>
      { answer := "Encountered an error while processing this URL.", sources := [] }

/-- src ragService `handleKnowledgeBaseQuery`: embed (step-local
fallback on failure), search (step-local fallback), fixed answer when
no sources, otherwise generate with the grounding prompt; on generation
failure the stripped sources are still returned with a fixed fallback
answer. -/
def handleKnowledgeBaseQuery (env : Env) (query : String) : ApiResponse :=
  match (generateEmbeddings env query).1 with
  | .error _ =>
    { answer := "encountered an error while processing your query.", sources := [] }
  | .ok queryVector =>
    match querySimilarVectors env queryVector 1 with
    | .error _ =>
      { answer := "couldn't search our knowledge base at the moment.", sources := [] }
    | .ok sources =>
      if sources.length = 0 then
        { answer := "No information related to the query in our knowledge base.", sources := [] }
      else
        match generateText env (knowledgePrompt query sources) with
        | .ok answer => { answer := answer, sources := sources.map stripSource }
        | .error _ => { answer := "Couldn't generate a response.", sources := sources.map stripSource }

/-- The body of `handleQuery`'s try-block: dispatch on `isValidUrl`;
an exception inside the block (modelled by `dispatchFault`) escapes as
an error to the enclosing catch. -/
def routeQuery (env : Env) (query : String) : Except Err ApiResponse :=
  match env.dispatchFault with
  | some e => .error e
  | none =>
    if isValidUrl query then .ok (handleUrlQuery env query)
    else .ok (handleKnowledgeBaseQuery env query)

/-- src ragService `handleQuery`: the router; its catch turns any
escaped error into the generic apology with empty sources. -/
def handleQuery (env : Env) (query : String) : ApiResponse :=
  match routeQuery env query with
  | .ok r => r
  | .error _ =>
    { answer := "Sorry, I encountered an unexpected error while processing your request.", sources := [] }

/-! ## Concrete fixtures used by counterexamples and witnesses -/

/-- The article produced by `envBase`'s structuring oracle for the url
`http://example.com/a`. -/
def tinyArticle : Article :=
  { title := "T", content := "c", url := "http://example.com/a", date := "2024-01-01" }

/-- A benign environment: every external call succeeds. -/
def envBase : Env :=
  { fetch := fun _ => .httpResp true "x"
    structGen := fun _ _ => .parsed { title := some "T", content := some "c", date := some "2024-01-01" }
    embedContent := fun _ => .ok (some [1])
    generateContent := fun _ => .ok "ans"
    queryMatches := fun _ _ => .ok []
    pineconeInitialized := true
    fetchFault := false
    writeFault := fun _ => none
    dispatchFault := none }

/-- An 8001-character content string, one character over the 8000-char
content truncation in `processUrl`. -/
def bigContent : String := String.mk (List.replicate 8001 'a')

/-- Environment whose embedding capability always errors. -/
def envEmbedFail : Env := { envBase with embedContent := fun _ => .error "boom" }

/-- Environment whose structuring step emits `bigContent`. -/
def envBigArticle : Env :=
  { envBase with structGen := fun _ _ => .parsed { title := some "T", content := some bigContent, date := none } }

/-- The article `envBigArticle` extraction produces. -/
def bigArticle : Article :=
  { title := "T", content := bigContent, url := "http://example.com/a", date := "" }

/-- Environment whose text-generation capability always errors. -/
def envGenFail : Env := { envBase with generateContent := fun _ => .error "genfail" }

/-- Environment with one knowledge-base match and failing generation. -/
def envKbGenFail : Env :=
  { envGenFail with queryMatches := fun _ _ => .ok [some tinyArticle] }

/-- Environment whose store write fails on attempts 0 and 1 and
succeeds on attempt 2. -/
def envThirdWriteOk : Env :=
  { envBase with writeFault := fun k => if k = 2 then none else some "down" }

/-- Environment whose store writes always fail. -/
def envAllWritesFail : Env := { envBase with writeFault := fun _ => some "down" }

/-- Environment in which the router's try-block raises. -/
def envDispatchFault : Env := { envBase with dispatchFault := some "boom" }

/-- Environment with one knowledge-base match and working generation. -/
def envKbOneMatch : Env :=
  { envBase with queryMatches := fun _ _ => .ok [some tinyArticle] }

/-! ## Helper lemmas -/

theorem generateEmbeddings_snd (env : Env) (text : String) :
    (generateEmbeddings env text).2 = [Ev.embedCall (truncForEmbedding text)] := by
  unfold generateEmbeddings
  cases h : env.embedContent (truncForEmbedding text) with
  | error e => simp [h]
  | ok o => cases o <;> simp [h]

theorem generateEmbeddings_fst_error (env : Env) (text : String) (e : Err)
    (h : env.embedContent (truncForEmbedding text) = .error e) :
    (generateEmbeddings env text).1 = .error ("Gemini embedding generation failed: " ++ e) := by
  unfold generateEmbeddings
  simp [h]

theorem generateEmbeddings_fst_ok (env : Env) (text : String) (v : List Int)
    (h : env.embedContent (truncForEmbedding text) = .ok (some v)) :
    (generateEmbeddings env text).1 = .ok v := by
  unfold generateEmbeddings
  simp [h]

theorem processUrl_snd (env : Env) (url html : String) (article : Article)
    (h0 : ¬(url = "" ∨ isValidUrl url = false))
    (h1 : fetchUrlContent env url = some html) (h2 : ¬ html = "")
    (h3 : cleanAndStructureHtml env html url = some article) :
    (processUrl env url).2 =
      [Ev.fetch url, Ev.structureCall, Ev.embedCall (truncForEmbedding (contentForEmbedding article))] := by
  unfold processUrl
  simp only [if_neg h0, h1, if_neg h2, h3]
  rcases hge : generateEmbeddings env (contentForEmbedding article) with ⟨r, ev⟩
  have hev : ev = [Ev.embedCall (truncForEmbedding (contentForEmbedding article))] := by
    have := generateEmbeddings_snd env (contentForEmbedding article)
    rw [hge] at this
    exact this
  cases r <;> simp [hev]

theorem processUrl_fst_embed_error (env : Env) (url html : String) (article : Article) (e : Err)
    (h0 : ¬(url = "" ∨ isValidUrl url = false))
    (h1 : fetchUrlContent env url = some html) (h2 : ¬ html = "")
    (h3 : cleanAndStructureHtml env html url = some article)
    (h4 : (generateEmbeddings env (contentForEmbedding article)).1 = .error e) :
    (processUrl env url).1 = none := by
  unfold processUrl
  simp only [if_neg h0, h1, if_neg h2, h3]
  rcases hge : generateEmbeddings env (contentForEmbedding article) with ⟨r, ev⟩
  rw [hge] at h4
  simp at h4
  subst h4
  simp

theorem processUrl_fst_embed_ok (env : Env) (url html : String) (article : Article) (v : List Int)
    (h0 : ¬(url = "" ∨ isValidUrl url = false))
    (h1 : fetchUrlContent env url = some html) (h2 : ¬ html = "")
    (h3 : cleanAndStructureHtml env html url = some article)
    (h4 : (generateEmbeddings env (contentForEmbedding article)).1 = .ok v) :
    (processUrl env url).1 = some (article, v) := by
  unfold processUrl
  simp only [if_neg h0, h1, if_neg h2, h3]
  rcases hge : generateEmbeddings env (contentForEmbedding article) with ⟨r, ev⟩
  rw [hge] at h4
  simp at h4
  subst h4
  simp

theorem jsSubstring_length (s : String) (n : Nat) :
    (jsSubstring s n).length = min s.length n := by
  show (s.data.take n).length = min s.length n
  rw [List.length_take]
  exact Nat.min_comm _ _

theorem string_mk_length (l : List Char) : (String.mk l).length = l.length := rfl

theorem bigContent_length : bigContent.length = 8001 := by
  show (List.replicate 8001 'a').length = 8001
  exact List.length_replicate 8001 'a'

theorem truncForEmbedding_of_le (s : String) (h : s.length ≤ MAX_EMBED_TEXT_LENGTH) :
    truncForEmbedding s = s := by
  unfold truncForEmbedding
  rw [if_neg]
  omega

theorem storeHas_applyWrite (store : Store) (id : String) (v : List Int) (a : Article) :
    storeHas (applyWrite store id v a) id = true := by
  simp [storeHas, applyWrite]

theorem upsertLoop_write_ok (env : Env) (id : String) (v : List Int) (a : Article)
    (store : Store) (fuel rc : Nat) (hw : env.writeFault rc = none) :
    upsertLoop env id v a store (fuel+1) rc = (.ok (), applyWrite store id v a, [Ev.storeWrite id]) := by
  rw [upsertLoop]
  simp [hw]

theorem upsertLoop_write_retry (env : Env) (id : String) (v : List Int) (a : Article)
    (store : Store) (fuel rc : Nat) (e : Err) (hw : env.writeFault rc = some e)
    (hle : rc + 1 ≤ MAX_RETRIES) :
    upsertLoop env id v a store (fuel+1) rc =
      ((upsertLoop env id v a store fuel (rc+1)).1,
       (upsertLoop env id v a store fuel (rc+1)).2.1,
       Ev.sleep (2 ^ (rc+1) * 1000) :: (upsertLoop env id v a store fuel (rc+1)).2.2) := by
  rw [upsertLoop]
  simp [hw, hle]

theorem upsertLoop_write_exhausted (env : Env) (id : String) (v : List Int) (a : Article)
    (store : Store) (fuel rc : Nat) (e : Err) (hw : env.writeFault rc = some e)
    (hle : ¬ rc + 1 ≤ MAX_RETRIES) :
    upsertLoop env id v a store (fuel+1) rc =
      (.error ("Failed to upsert vector to Pinecone: " ++ e), store, []) := by
  rw [upsertLoop]
  simp [hw, hle]

theorem upsertVector_not_present (env : Env) (store : Store) (id : String) (v : List Int) (a : Article)
    (hinit : env.pineconeInitialized = true)
    (hexs : (if env.fetchFault then false else storeHas store id) = false) :
    upsertVector env store id v a = upsertLoop env id v a store (MAX_RETRIES + 1) 0 := by
  unfold upsertVector
  simp [hinit, hexs]

theorem upsertVector_present_skip (env : Env) (store : Store) (id : String) (v : List Int) (a : Article)
    (hinit : env.pineconeInitialized = true)
    (hexs : (if env.fetchFault then false else storeHas store id) = true) :
    upsertVector env store id v a = (.ok (), store, []) := by
  unfold upsertVector
  simp [hinit, hexs]

theorem upsertLoop_ok_store (env : Env) (id : String) (v : List Int) (a : Article) :
    ∀ fuel store rc s' ev, upsertLoop env id v a store fuel rc = (.ok (), s', ev) →
      s' = applyWrite store id v a := by
  intro fuel
  induction fuel with
  | zero => intro store rc s' ev h; simp [upsertLoop] at h
  | succ n ih =>
    intro store rc s' ev h
    rw [upsertLoop] at h
    cases hw : env.writeFault rc with
    | none =>
      simp only [hw] at h
      simp at h
      exact h.1.symm
    | some e =>
      simp only [hw] at h
      by_cases hle : rc + 1 ≤ MAX_RETRIES
      · rw [if_pos hle] at h
        rcases hrest : upsertLoop env id v a store n (rc + 1) with ⟨r1, s1, ev1⟩
        simp only [hrest] at h
        have hr : r1 = .ok () := congrArg Prod.fst h
        have hs : s1 = s' := congrArg (fun p => p.2.1) h
        exact hs ▸ ih store (rc + 1) s1 ev1 (by rw [hrest, hr])
      · rw [if_neg hle] at h
        simp at h


/-- Claim C4. -/
theorem c4_upsert_retry_backoff (env : Env) (store : Store) (id : String) (v : List Int) (a : Article)
    (hinit : env.pineconeInitialized = true) (habs : storeHas store id = false) :
    (∀ e0 e1, env.writeFault 0 = some e0 → env.writeFault 1 = some e1 → env.writeFault 2 = none →
      upsertVector env store id v a =
        (.ok (), applyWrite store id v a, [Ev.sleep 2000, Ev.sleep 4000, Ev.storeWrite id])) ∧
    (∀ e0 e1 e2, env.writeFault 0 = some e0 → env.writeFault 1 = some e1 → env.writeFault 2 = some e2 →
      upsertVector env store id v a =
        (.error ("Failed to upsert vector to Pinecone: " ++ e2), store, [Ev.sleep 2000, Ev.sleep 4000])) := by
  have hexs : (if env.fetchFault then false else storeHas store id) = false := by
    cases env.fetchFault <;> simp [habs]
  have hentry := upsertVector_not_present env store id v a hinit hexs
  constructor
  · intro e0 e1 h0 h1 h2
    rw [hentry]
    show upsertLoop env id v a store 3 0 = _
    rw [upsertLoop_write_retry env id v a store 2 0 e0 h0 (by norm_num [MAX_RETRIES]),
        upsertLoop_write_retry env id v a store 1 1 e1 h1 (by norm_num [MAX_RETRIES]),
        upsertLoop_write_ok env id v a store 0 2 h2]
    norm_num
  · intro e0 e1 e2 h0 h1 h2
    rw [hentry]
    show upsertLoop env id v a store 3 0 = _
    rw [upsertLoop_write_retry env id v a store 2 0 e0 h0 (by norm_num [MAX_RETRIES]),
        upsertLoop_write_retry env id v a store 1 1 e1 h1 (by norm_num [MAX_RETRIES]),
        upsertLoop_write_exhausted env id v a store 0 2 e2 h2 (by norm_num [MAX_RETRIES])]
    norm_num

/-- Witness for C4. -/
theorem c4_witness :
    upsertVector envThirdWriteOk [] "http://example.com/a" [1] tinyArticle =
      (.ok (), applyWrite [] "http://example.com/a" [1] tinyArticle,
       [Ev.sleep 2000, Ev.sleep 4000, Ev.storeWrite "http://example.com/a"]) ∧
    upsertVector envAllWritesFail [] "http://example.com/a" [1] tinyArticle =
      (.error ("Failed to upsert vector to Pinecone: " ++ "down"), [], [Ev.sleep 2000, Ev.sleep 4000]) :=
  ⟨(c4_upsert_retry_backoff envThirdWriteOk [] "http://example.com/a" [1] tinyArticle rfl rfl).1
      "down" "down" rfl rfl rfl,
   (c4_upsert_retry_backoff envAllWritesFail [] "http://example.com/a" [1] tinyArticle rfl rfl).2
      "down" "down" "down" rfl rfl rfl⟩

/-- Claim C5. -/
theorem c5_upsert_idempotent (env : Env) (store : Store) (id : String) (v v' : List Int) (a a' : Article)
    (hinit : env.pineconeInitialized = true) (hff : env.fetchFault = false) :
    (storeHas store id = true → upsertVector env store id v a = (.ok (), store, [])) ∧
    (∀ store' ev, upsertVector env store id v a = (.ok (), store', ev) →
      upsertVector env store' id v' a' = (.ok (), store', [])) := by
  constructor
  · intro hhas
    exact upsertVector_present_skip env store id v a hinit (by simp [hff, hhas])
  · intro store' ev hok
    have hhas' : storeHas store' id = true := by
      by_cases hhas : storeHas store id = true
      · have := upsertVector_present_skip env store id v a hinit (by simp [hff, hhas])
        rw [this] at hok
        have : store = store' := congrArg (fun p => p.2.1) hok
        rw [← this]
        exact hhas
      · have hexs : (if env.fetchFault then false else storeHas store id) = false := by
          simp [hff]
          simpa using hhas
        have hentry := upsertVector_not_present env store id v a hinit hexs
        rw [hentry] at hok
        have hsw : store' = applyWrite store id v a :=
          upsertLoop_ok_store env id v a (MAX_RETRIES + 1) store 0 store' ev hok
        rw [hsw]
        exact storeHas_applyWrite store id v a
    exact upsertVector_present_skip env store' id v' a' hinit (by simp [hff, hhas'])

/-- Witness for C5. -/
theorem c5_witness :
    upsertVector envBase [("http://example.com/a", [1], tinyArticle)] "http://example.com/a" [2] tinyArticle =
      (.ok (), [("http://example.com/a", [1], tinyArticle)], []) :=
  (c5_upsert_idempotent envBase [("http://example.com/a", [1], tinyArticle)] "http://example.com/a"
    [2] [2] tinyArticle tinyArticle rfl rfl).1 rfl


theorem stripSource_content (s : Source) (l : List Source) (h : s ∈ l.map stripSource) :
    s.content = none := by
  rcases List.mem_map.mp h with ⟨t, _, rfl⟩
  rfl

/-- Claim C6. -/
theorem c6_router_never_propagates (env : Env) (q : String) :
    (∀ e, env.dispatchFault = some e →
      handleQuery env q =
        { answer := "Sorry, I encountered an unexpected error while processing your request.",
          sources := [] }) ∧
    (env.dispatchFault = none → routeQuery env q = .ok (handleQuery env q)) := by
  constructor
  · intro e he
    unfold handleQuery routeQuery
    simp [he]
  · intro hn
    unfold handleQuery routeQuery
    rw [hn]
    by_cases hu : isValidUrl q <;> simp [hu]

/-- Witness for C6. -/
theorem c6_witness :
    handleQuery envDispatchFault "q" =
      { answer := "Sorry, I encountered an unexpected error while processing your request.",
        sources := [] } ∧
    routeQuery envBase "q" = .ok (handleQuery envBase "q") :=
  ⟨(c6_router_never_propagates envDispatchFault "q").1 "boom" rfl,
   (c6_router_never_propagates envBase "q").2 rfl⟩

/-- Claim C7. -/
theorem c7_sources_never_contain_content (env : Env) (q : String) (s : Source)
    (h : s ∈ (handleQuery env q).sources) : s.content = none := by
  unfold handleQuery routeQuery at h
  cases hdf : env.dispatchFault with
  | some e =>
    rw [hdf] at h
    simp at h
  | none =>
    rw [hdf] at h
    by_cases hu : isValidUrl q
    · simp only [hu, if_true, if_pos] at h
      unfold handleUrlQuery at h
      cases hp : (processUrl env q).1 with
      | none => rw [hp] at h; simp at h
      | some pr =>
        rw [hp] at h
        obtain ⟨article, vec⟩ := pr
        simp only [] at h
        cases hg : generateText env (urlQueryPrompt article) with
        | ok ans =>
          rw [hg] at h
          simp at h
          rw [h]
        | error e =>
          rw [hg] at h
          simp at h
    · simp only [hu, Bool.false_eq_true, if_false] at h
      unfold handleKnowledgeBaseQuery at h
      cases hge : (generateEmbeddings env q).1 with
      | error e => rw [hge] at h; simp at h
      | ok qv =>
        rw [hge] at h
        simp only [] at h
        cases hqs : querySimilarVectors env qv 1 with
        | error e => rw [hqs] at h; simp at h
        | ok srcs =>
          rw [hqs] at h
          simp only [] at h
          by_cases hlen : srcs.length = 0
          · rw [if_pos hlen] at h; simp at h
          · rw [if_neg hlen] at h
            cases hg : generateText env (knowledgePrompt q srcs) with
            | ok ans =>
              rw [hg] at h
              exact stripSource_content s srcs h
            | error e =>
              rw [hg] at h
              exact stripSource_content s srcs h

/-- Witness for C7. -/
theorem c7_witness :
    (⟨"T", "http://example.com/a", "2024-01-01", none⟩ : Source).content = none :=
  c7_sources_never_contain_content envKbOneMatch "q" _ (by decide)

/-- Claim C9. -/
theorem c9_no_matches_fixed_answer (env : Env) (q : String) (v : List Int)
    (hq : isValidUrl q = false) (hdf : env.dispatchFault = none)
    (hinit : env.pineconeInitialized = true)
    (hemb : env.embedContent (truncForEmbedding q) = .ok (some v))
    (hqm : env.queryMatches v 1 = .ok []) :
    handleQuery env q =
      { answer := "No information related to the query in our knowledge base.", sources := [] } := by
  unfold handleQuery routeQuery
  rw [hdf]
  simp only [hq, Bool.false_eq_true, if_false]
  unfold handleKnowledgeBaseQuery
  rw [generateEmbeddings_fst_ok env q v hemb]
  have hqs : querySimilarVectors env v 1 = .ok [] := by
    unfold querySimilarVectors
    simp [hinit, hqm, matchesToSources]
  simp [hqs]

/-- Witness for C9. -/
theorem c9_witness :
    handleQuery envBase "q" =
      { answer := "No information related to the query in our knowledge base.", sources := [] } :=
  c9_no_matches_fixed_answer envBase "q" [1] rfl rfl rfl rfl rfl


/-- Claim C1 counterexample. -/
theorem c1_counterexample :
    cleanAndStructureHtml envEmbedFail "x" "http://example.com/a" = some tinyArticle ∧
    (generateEmbeddings envEmbedFail (contentForEmbedding tinyArticle)).1 =
      .error "Gemini embedding generation failed: boom" ∧
    handleUrlIngestion envEmbedFail [] "http://example.com/a" =
      (.ok (), [],
       [Ev.fetch "http://example.com/a", Ev.structureCall,
        Ev.embedCall (truncForEmbedding (contentForEmbedding tinyArticle))]) :=
  ⟨rfl, rfl, rfl⟩

/-- Claim C1 amended. -/
theorem c1_amended_embedding_failure_swallowed (env : Env) (store : Store)
    (url html : String) (article : Article) (e : Err)
    (h0 : ¬(url = "" ∨ isValidUrl url = false))
    (h1 : fetchUrlContent env url = some html) (h2 : ¬ html = "")
    (h3 : cleanAndStructureHtml env html url = some article)
    (h4 : env.embedContent (truncForEmbedding (contentForEmbedding article)) = .error e) :
    handleUrlIngestion env store url =
      (.ok (), store,
       [Ev.fetch url, Ev.structureCall,
        Ev.embedCall (truncForEmbedding (contentForEmbedding article))]) := by
  have hfst := processUrl_fst_embed_error env url html article _ h0 h1 h2 h3
    (generateEmbeddings_fst_error env (contentForEmbedding article) e h4)
  have hsnd := processUrl_snd env url html article h0 h1 h2 h3
  unfold handleUrlIngestion
  rw [if_neg h0]
  rcases hpu : processUrl env url with ⟨o, tr⟩
  rw [hpu] at hfst hsnd
  simp at hfst hsnd
  subst hfst
  subst hsnd
  simp

/-- Witness for C1 amended. -/
theorem c1_witness :
    handleUrlIngestion envEmbedFail [] "http://example.com/a" =
      (.ok (), [],
       [Ev.fetch "http://example.com/a", Ev.structureCall,
        Ev.embedCall (truncForEmbedding (contentForEmbedding tinyArticle))]) :=
  c1_amended_embedding_failure_swallowed envEmbedFail [] "http://example.com/a" "x" tinyArticle
    "boom" (by decide) rfl (by decide) rfl rfl

/-- Claim C2 counterexample. -/
theorem c2_counterexample :
    (processUrl envBigArticle "http://example.com/a").2 =
      [Ev.fetch "http://example.com/a", Ev.structureCall,
       Ev.embedCall (truncForEmbedding (contentForEmbedding bigArticle))] ∧
    truncForEmbedding (contentForEmbedding bigArticle) ≠
      truncForEmbedding (bigArticle.title ++ ". " ++ bigArticle.content) := by
  have hlen1 : (contentForEmbedding bigArticle).length = 8003 := by
    show (("T" : String) ++ ". " ++ jsSubstring bigContent 8000).length = 8003
    rw [String.length_append, String.length_append, jsSubstring_length, bigContent_length]
    decide
  have hlen2 : (bigArticle.title ++ ". " ++ bigArticle.content).length = 8004 := by
    show (("T" : String) ++ ". " ++ bigContent).length = 8004
    rw [String.length_append, String.length_append, bigContent_length]
    decide
  constructor
  · exact processUrl_snd envBigArticle _ "x" bigArticle (by decide) rfl (by decide) rfl
  · have t1 : truncForEmbedding (contentForEmbedding bigArticle) = contentForEmbedding bigArticle :=
      truncForEmbedding_of_le _ (by rw [hlen1]; norm_num [MAX_EMBED_TEXT_LENGTH])
    have t2 : truncForEmbedding (bigArticle.title ++ ". " ++ bigArticle.content) =
        bigArticle.title ++ ". " ++ bigArticle.content :=
      truncForEmbedding_of_le _ (by rw [hlen2]; norm_num [MAX_EMBED_TEXT_LENGTH])
    rw [t1, t2]
    intro heq
    have hl := congrArg String.length heq
    rw [hlen1, hlen2] at hl
    omega

/-- Claim C2 amended. -/
theorem c2_amended_embed_input_pretruncated (env : Env) (url html : String) (article : Article)
    (h0 : ¬(url = "" ∨ isValidUrl url = false))
    (h1 : fetchUrlContent env url = some html) (h2 : ¬ html = "")
    (h3 : cleanAndStructureHtml env html url = some article) :
    (processUrl env url).2 =
      [Ev.fetch url, Ev.structureCall,
       Ev.embedCall (truncForEmbedding (article.title ++ ". " ++ jsSubstring article.content 8000))] :=
  processUrl_snd env url html article h0 h1 h2 h3

/-- Witness for C2 amended. -/
theorem c2_witness :
    (processUrl envBase "http://example.com/a").2 =
      [Ev.fetch "http://example.com/a", Ev.structureCall,
       Ev.embedCall (truncForEmbedding (tinyArticle.title ++ ". " ++ jsSubstring tinyArticle.content 8000))] :=
  c2_amended_embed_input_pretruncated envBase "http://example.com/a" "x" tinyArticle
    (by decide) rfl (by decide) rfl

/-- Claim C3 counterexample. -/
theorem c3_counterexample :
    (processUrl envGenFail "http://example.com/a").1 = some (tinyArticle, [1]) ∧
    handleQuery envGenFail "http://example.com/a" =
      { answer := "Encountered an error while processing this URL.", sources := [] } :=
  ⟨rfl, rfl⟩

/-- Claim C3 amended. -/
theorem c3_amended_generation_fallback (env : Env) :
    (∀ q v mds e, isValidUrl q = false → env.dispatchFault = none →
      env.pineconeInitialized = true →
      env.embedContent (truncForEmbedding q) = .ok (some v) →
      env.queryMatches v 1 = .ok mds →
      ¬ matchesToSources mds = [] →
      env.generateContent (knowledgePrompt q (matchesToSources mds)) = .error e →
      handleQuery env q =
        { answer := "Couldn't generate a response.",
          sources := (matchesToSources mds).map stripSource }) ∧
    (∀ url article vector e, isValidUrl url = true → env.dispatchFault = none →
      (processUrl env url).1 = some (article, vector) →
      env.generateContent (urlQueryPrompt article) = .error e →
      handleQuery env url =
        { answer := "Encountered an error while processing this URL.", sources := [] }) := by
  constructor
  · intro q v mds e hq hdf hinit hemb hqm hne hgen
    unfold handleQuery routeQuery
    rw [hdf]
    simp only [hq, Bool.false_eq_true, if_false]
    unfold handleKnowledgeBaseQuery
    rw [generateEmbeddings_fst_ok env q v hemb]
    simp only []
    have hqs : querySimilarVectors env v 1 = .ok (matchesToSources mds) := by
      unfold querySimilarVectors
      simp [hinit, hqm]
    rw [hqs]
    simp only []
    rw [if_neg (by simpa [List.length_eq_zero] using hne)]
    have hgt : generateText env (knowledgePrompt q (matchesToSources mds)) =
        .error ("Gemini text generation failed: " ++ e) := by
      unfold generateText
      rw [hgen]
    rw [hgt]
  · intro url article vector e hu hdf hp hgen
    unfold handleQuery routeQuery
    rw [hdf]
    simp only [hu, if_true]
    unfold handleUrlQuery
    rw [hp]
    simp only []
    have hgt : generateText env (urlQueryPrompt article) =
        .error ("Gemini text generation failed: " ++ e) := by
      unfold generateText
      rw [hgen]
    rw [hgt]

/-- Witness for C3 amended. -/
theorem c3_witness :
    handleQuery envKbGenFail "q" =
      { answer := "Couldn't generate a response.",
        sources := (matchesToSources [some tinyArticle]).map stripSource } ∧
    handleQuery envGenFail "http://example.com/a" =
      { answer := "Encountered an error while processing this URL.", sources := [] } :=
  ⟨(c3_amended_generation_fallback envKbGenFail).1 "q" [1] [some tinyArticle] "genfail"
      rfl rfl rfl rfl rfl (by decide) rfl,
   (c3_amended_generation_fallback envGenFail).2 "http://example.com/a" tinyArticle [1] "genfail"
      (by decide) rfl rfl rfl⟩


theorem mem_addToCache (cache : List String) (url : String) : url ∈ addToCache cache url := by
  unfold addToCache
  by_cases h : url ∈ cache <;> simp [h]

theorem addToCache_length (cache : List String) (url : String) (h : url ∉ cache) :
    (addToCache cache url).length = cache.length + 1 := by
  simp [addToCache, h]

/-- Claim C8. -/
theorem c8_dedup_skip (env : Env) (cache : List String) (store : Store)
    (msg : KafkaMessageValue) (url : String) (hurl : messageUrl msg = some url) :
    (url ∈ cache → handleKafkaMessage env cache store msg = (cache, store, [])) ∧
    (url ∉ cache →
      ∀ st1 ev1, handleUrlIngestion env store url = (.ok (), st1, ev1) →
      cache.length + 1 ≤ MAX_CACHE_SIZE →
      handleKafkaMessage env cache store msg = (addToCache cache url, st1, ev1) ∧
      handleKafkaMessage env (addToCache cache url) st1 msg = (addToCache cache url, st1, [])) := by
  constructor
  · intro hmem
    unfold handleKafkaMessage
    rw [hurl]
    simp [hmem]
  · intro hnm st1 ev1 hing hlen
    have hclear : (if MAX_CACHE_SIZE < (addToCache cache url).length then ([] : List String)
        else addToCache cache url) = addToCache cache url := by
      rw [if_neg]
      rw [addToCache_length cache url hnm]
      omega
    constructor
    · unfold handleKafkaMessage
      rw [hurl]
      simp only []
      rw [if_neg hnm, hing]
      simp only []
      rw [hclear]
    · unfold handleKafkaMessage
      rw [hurl]
      simp [mem_addToCache cache url]

/-- Witness for C8. -/
theorem c8_witness :
    handleKafkaMessage envBase ["hello"] [] (.notJson "hello") = (["hello"], [], []) ∧
    handleKafkaMessage envBase [] [] (.notJson "hello") = (addToCache [] "hello", [], []) ∧
    handleKafkaMessage envBase (addToCache [] "hello") [] (.notJson "hello") =
      (addToCache [] "hello", [], []) :=
  ⟨(c8_dedup_skip envBase ["hello"] [] (.notJson "hello") "hello" rfl).1 (by decide),
   ((c8_dedup_skip envBase [] [] (.notJson "hello") "hello" rfl).2 (by decide) [] [] rfl
      (by decide)).1,
   ((c8_dedup_skip envBase [] [] (.notJson "hello") "hello" rfl).2 (by decide) [] [] rfl
      (by decide)).2⟩

/-- Claim C10. -/
theorem c10_cache_only_after_success (env : Env) (cache : List String) (store : Store)
    (msg : KafkaMessageValue) (url : String) (e : Err) (st1 : Store) (ev1 : List Ev)
    (hurl : messageUrl msg = some url) (hnm : url ∉ cache)
    (hing : handleUrlIngestion env store url = (.error e, st1, ev1)) :
    handleKafkaMessage env cache store msg = (cache, st1, ev1) ∧
    (handleKafkaMessage env cache st1 msg).2.2 = (handleUrlIngestion env st1 url).2.2 := by
  constructor
  · unfold handleKafkaMessage
    rw [hurl]
    simp only []
    rw [if_neg hnm, hing]
  · unfold handleKafkaMessage
    rw [hurl]
    simp only []
    rw [if_neg hnm]
    rcases h2 : handleUrlIngestion env st1 url with ⟨r2, s2, ev2⟩
    cases r2 <;> simp

/-- Witness for C10. -/
theorem c10_witness :
    handleKafkaMessage envAllWritesFail [] [] (.notJson "http://example.com/a") =
      ([],
       [],
       [Ev.fetch "http://example.com/a", Ev.structureCall,
        Ev.embedCall (truncForEmbedding (contentForEmbedding tinyArticle)),
        Ev.sleep 2000, Ev.sleep 4000]) ∧
    (handleKafkaMessage envAllWritesFail [] [] (.notJson "http://example.com/a")).2.2 =
      (handleUrlIngestion envAllWritesFail [] "http://example.com/a").2.2 :=
  ⟨(c10_cache_only_after_success envAllWritesFail [] [] (.notJson "http://example.com/a")
      "http://example.com/a"
      ("URL processing failed: Vector storage failed: Failed to upsert vector to Pinecone: down")
      [] [Ev.fetch "http://example.com/a", Ev.structureCall,
        Ev.embedCall (truncForEmbedding (contentForEmbedding tinyArticle)),
        Ev.sleep 2000, Ev.sleep 4000]
      rfl (by decide) rfl).1,
   (c10_cache_only_after_success envAllWritesFail [] [] (.notJson "http://example.com/a")
      "http://example.com/a"
      ("URL processing failed: Vector storage failed: Failed to upsert vector to Pinecone: down")
      [] [Ev.fetch "http://example.com/a", Ev.structureCall,
        Ev.embedCall (truncForEmbedding (contentForEmbedding tinyArticle)),
        Ev.sleep 2000, Ev.sleep 4000]
      rfl (by decide) rfl).2⟩


end NewsAgent
